import Mathlib

/-!
Verification development for the ARthroNeRF view-synthesis repository.

Part 1 embeds `DataCollect/utils/ssim.py`, a module-level script that
compares a hardcoded image pair and then walks the `black_toy/test_output`
directory.  Library calls (`cv2.imread`, `cv2.cvtColor`, `skimage`'s
`structural_similarity`, `os.listdir`) are external, so they are abstracted
into an environment record; the script's own control flow and data flow are
embedded faithfully.

Part 2 embeds the driver `NeRF_instant/scripts/run_modify.py`: the
argument-derived configuration logic, the GUI resolution-halving loop, the
NDI camera-pose pipeline, the `--test_transforms` metric accumulation and
the `--video_camera_path` render loop.  Matrices are over ℚ (the scripts'
float constants are taken at their exact decimal values); `np.linalg.inv`
is embedded as the adjugate-based inverse `matInv`.
-/

/-! ## Part 1: DataCollect/utils/ssim.py -/

/-- External world of the ssim.py script: `cv2.imread` yields an opaque
image (coded as a natural number), `cv2.cvtColor(..., COLOR_BGR2GRAY)` maps
images to images, `structural_similarity` yields a score, and
`os.listdir(path + '/test_output')` yields the directory listing. -/
structure SsimEnv where
  imread : String → ℕ
  gray : ℕ → ℕ
  ssimScore : ℕ → ℕ → ℚ
  listing : List String

/-- `path = 'black_toy'` (ssim.py line 14). -/
def ssimPath : String := "black_toy"

/-- `imageA = cv2.imread("black_toy/images/564.png")` (ssim.py line 23). -/
def imageA (env : SsimEnv) : ℕ := env.imread "black_toy/images/564.png"

/-- `imageB = cv2.imread("black_toy/test_output/564.png", 1)` (ssim.py line 24). -/
def imageB (env : SsimEnv) : ℕ := env.imread "black_toy/test_output/564.png"

/-- `grayA = cv2.cvtColor(imageA, cv2.COLOR_BGR2GRAY)` (ssim.py line 29). -/
def grayA (env : SsimEnv) : ℕ := env.gray (imageA env)

/-- `grayB = cv2.cvtColor(imageB, cv2.COLOR_BGR2GRAY)` (ssim.py line 30). -/
def grayB (env : SsimEnv) : ℕ := env.gray (imageB env)

/-- `(score, diff) = ssim(grayA, grayB, full=True)` (ssim.py line 35):
the score printed by `print("SSIM: {}".format(score))`. -/
def headerScore (env : SsimEnv) : ℚ := env.ssimScore (grayA env) (grayB env)

/-- Body of the directory loop (ssim.py lines 43-50).  The script loads
`generated = cv2.imread(path + '/test_output/' + image)` and
`original = cv2.imread(path + '/images/' + image, 1)` but the score it
appends is `ssim(grayA, grayB, full=True)` — computed from the grayscale
images of the hardcoded header pair, with `generated`/`original` unused. -/
def loopBodyScore (env : SsimEnv) (image : String) : ℚ :=
  let generated := env.imread (ssimPath ++ "/test_output/" ++ image)
  let original := env.imread (ssimPath ++ "/images/" ++ image)
  let _ := generated
  let _ := original
  env.ssimScore (grayA env) (grayB env)

/-- The running list `total` after the loop over
`images = os.listdir(path+'/test_output')` (ssim.py lines 41-50). -/
def totalScores (env : SsimEnv) : List ℚ :=
  env.listing.map (loopBodyScore env)

/-- `print(sum(total)/len(total))` (ssim.py line 51).  Python raises
`ZeroDivisionError` when `len(total) == 0`; the failure is modelled as
`none`. -/
def dirAverage (env : SsimEnv) : Option ℚ :=
  let total := totalScores env
  if total.length = 0 then none
  else some (total.sum / (total.length : ℚ))

/-- What the spec sentence for C1 describes (per the spec's words, not the
code): the structural-similarity score of the generated image
`test_output/<image>` against the same-named reference image
`images/<image>`, each converted to grayscale. -/
def claimedPairScore (env : SsimEnv) (image : String) : ℚ :=
  env.ssimScore
    (env.gray (env.imread (ssimPath ++ "/images/" ++ image)))
    (env.gray (env.imread (ssimPath ++ "/test_output/" ++ image)))

/-- Events performed by the ssim.py script, in program order. -/
inductive SEvent where
  | eRead (p : String)
  | eGray (img : ℕ)
  | eSsim (a b : ℕ)
  | ePrint (q : ℚ)
  deriving DecidableEq

/-- The ordered effect trace of ssim.py's module level: the two hardcoded
reads (lines 23-24), the two grayscale conversions (lines 29-30), the
header SSIM computation (line 35), the `print("SSIM: ...")` (line 39), and
then the directory loop (lines 41-50). -/
def scriptTrace (env : SsimEnv) : List SEvent :=
  [SEvent.eRead "black_toy/images/564.png",
   SEvent.eRead "black_toy/test_output/564.png",
   SEvent.eGray (imageA env),
   SEvent.eGray (imageB env),
   SEvent.eSsim (grayA env) (grayB env),
   SEvent.ePrint (headerScore env)]
  ++ (env.listing.map fun image =>
       [SEvent.eRead (ssimPath ++ "/test_output/" ++ image),
        SEvent.eRead (ssimPath ++ "/images/" ++ image),
        SEvent.eSsim (grayA env) (grayB env)]).flatten

/-- Concrete environment exhibiting the loop bug: the directory holds one
file `100.png`, and the SSIM oracle distinguishes the `100.png` pair (score
34) from the hardcoded `564.png` pair (score 12). -/
def envBug : SsimEnv where
  imread p :=
    if p = "black_toy/images/564.png" then 1
    else if p = "black_toy/test_output/564.png" then 2
    else if p = "black_toy/images/100.png" then 3
    else 4
  gray := id
  ssimScore a b := (a : ℚ) * 10 + (b : ℚ)
  listing := ["100.png"]

/-! ## Part 2: NeRF_instant/scripts/run_modify.py -/

/-- 4x4 matrices over ℚ; the driver's float matrices are embedded with
their exact decimal values. -/
abbrev M4 : Type := Matrix (Fin 4) (Fin 4) ℚ

/-- `np.linalg.inv`, embedded as the adjugate-based inverse.  (For a
singular argument `np.linalg.inv` raises; following the usual Mathlib
convention the embedding returns `0` there, and every theorem that depends
on an inverse treats the singular case explicitly.) -/
def matInv (A : M4) : M4 :=
  if A.det = 0 then 0 else A.det⁻¹ • A.adjugate

/-- Row selection `[1,0,2,3]` used by `c2w = c2w[[1,0,2,3],:]`
(run_modify.py line 42): row `i` of the result is row `rowPerm i` of the
argument. -/
def rowPerm : Fin 4 → Fin 4 := ![1, 0, 2, 3]

/-- `flip_matrix` (run_modify.py lines 38-44):
`c2w = np.linalg.inv(m)`; `c2w[0:3,2] *= -1`; `c2w[0:3,1] *= -1`;
`c2w = c2w[[1,0,2,3],:]`; `c2w[2,:] *= -1`.  The numpy slice `0:3` touches
rows 0-2 only. -/
def flip_matrix (m : M4) : M4 :=
  let c2w := matInv m
  let c2w := Matrix.of fun i j => if j = 2 ∧ i ≠ 3 then -c2w i j else c2w i j
  let c2w := Matrix.of fun i j => if j = 1 ∧ i ≠ 3 then -c2w i j else c2w i j
  let c2w := Matrix.of fun i j => c2w (rowPerm i) j
  let c2w := Matrix.of fun i j => if i = 2 then -c2w i j else c2w i j
  c2w

/-- The upper-left 3x3 block, numpy's `m[:3,:3]`. -/
def block3 (m : M4) : Matrix (Fin 3) (Fin 3) ℚ :=
  Matrix.of fun i j => m ⟨i.val, by omega⟩ ⟨j.val, by omega⟩

/-- `rotation_matrix_to_vector` (run_modify.py lines 46-49):
`old_vec = matrix[:, 2]; vec = [-old_vec[1], -old_vec[2], -old_vec[0]]`. -/
def rotation_matrix_to_vector (matrix : Matrix (Fin 3) (Fin 3) ℚ) : ℚ × ℚ × ℚ :=
  let old_vec := fun i => matrix i 2
  (-(old_vec 1), -(old_vec 2), -(old_vec 0))

/-- The per-frame transform of the NDI branch (run_modify.py lines
326-351), starting from the valid tracking sample `tracking[0]`:
`camera2tool = np.linalg.inv(tool2camera)` (line 282);
`transform_matrix = camera2tool @ np.linalg.inv(transform_matrix)`;
`transform_matrix = transform_matrix @ world_center @ tool2camera`;
`transform_matrix = flip_matrix(transform_matrix)`;
`avg_post_avglen = sum(post_avglen) / len(post_avglen)`;
`transform_matrix[0:3, 3] *= 4.0 / avg_post_avglen`. -/
def ndiTransform (tool2camera world_center : M4) (post_avglen : List ℚ)
    (tracking : M4) : M4 :=
  let camera2tool := matInv tool2camera
  let transform_matrix := tracking
  let transform_matrix := camera2tool * matInv transform_matrix
  let transform_matrix := transform_matrix * world_center * tool2camera
  let transform_matrix := flip_matrix transform_matrix
  let avg_post_avglen := post_avglen.sum / (post_avglen.length : ℚ)
  Matrix.of fun i j =>
    if j = 3 ∧ i ≠ 3 then 4 / avg_post_avglen * transform_matrix i j
    else transform_matrix i j

/-- `center = [0.5,-0.50478,0]` (run_modify.py line 355). -/
def ndiCenter : ℚ × ℚ × ℚ := (0.5, -0.50478, 0)

/-- The last value assigned to `testbed.look_at` in an iteration
(run_modify.py line 443): `tran_vec = transform_matrix[[0,1,2],-1]` and
`look_at = [center[0] + tran_vec[1]/289.13, 0.5 + tran_vec[2]*0.0036754,
0.5 + tran_vec[0]/313.7255]`. -/
def lookAtOf (m : M4) : ℚ × ℚ × ℚ :=
  let tran_vec := fun i : Fin 3 => m ⟨i.val, by omega⟩ 3
  (ndiCenter.1 + tran_vec 1 / 289.13,
   0.5 + tran_vec 2 * 0.0036754,
   0.5 + tran_vec 0 / 313.7255)

/-- The last value assigned to `testbed.view_dir` in an iteration
(run_modify.py lines 447-452): `rotation_matrix = transform_matrix[:3,:3]`
then `rotation_matrix_to_vector(rotation_matrix)` — without the 45-degree
observation rotation used by the earlier, overwritten assignment. -/
def viewDirOf (m : M4) : ℚ × ℚ × ℚ :=
  rotation_matrix_to_vector (block3 m)

/-- The last value assigned to `testbed.up_dir` in an iteration
(run_modify.py lines 455-457):
`[rotation_matrix[1, 1], rotation_matrix[2, 1], rotation_matrix[0, 1]]`. -/
def upDirOf (m : M4) : ℚ × ℚ × ℚ :=
  let rotation_matrix := block3 m
  (rotation_matrix 1 1, rotation_matrix 2 1, rotation_matrix 0 1)

/-- The last value assigned to `testbed.scale` in an iteration
(run_modify.py line 458): `tran_vec[2]*0.0036754*0.4`. -/
def scaleOf (m : M4) : ℚ := m 2 3 * 0.0036754 * 0.4

/-- The hardcoded pivot-calibration matrix `x` of the evaluation branch
(run_modify.py lines 378-383), at its exact decimal values. -/
def pivotCalibMatrix : M4 :=
  Matrix.of
    ![![1.79233051e-01, 7.81816542e-02, 9.80695234e-01, 2.69621530e+02],
      ![2.05724419e-01, -9.77777731e-01, 4.03506246e-02, -2.86812080e+00],
      ![9.62056639e-01, 1.94520791e-01, -1.91333961e-01, -6.97097727e+01],
      ![0, 0, 0, 1]]

/-- `calculate_relative_positions` (run_modify.py lines 86-96): for each
`[i, data]` of the stream, subtract `base_pos[:3, -1]` from
`data[:3, -1]`. -/
def calculate_relative_positions (base_pos : M4) (stream : List (ℕ × M4)) :
    List (ℕ × (ℚ × ℚ × ℚ)) :=
  stream.map fun p =>
    let base_column := fun i : Fin 3 => base_pos ⟨i.val, by omega⟩ 3
    let data_column := fun i : Fin 3 => p.2 ⟨i.val, by omega⟩ 3
    (p.1,
     (data_column 0 - base_column 0,
      data_column 1 - base_column 1,
      data_column 2 - base_column 2))

/-- The mutable variables of the training loop that survive from one
iteration to the next and are touched by the NDI branch (run_modify.py
lines 293-313): `j`, `last_pressed_time`, `key_held`, `prev_timer_value`,
`start_time`, `press_count`, `times_recorded`, `stream_list`. -/
structure LoopState where
  j : ℕ
  last_pressed_time : ℚ
  key_held : Bool
  prev_timer_value : ℚ
  start_time : Option ℚ
  press_count : ℕ
  times_recorded : List ℚ
  stream_list : List (List (ℕ × (ℚ × ℚ × ℚ)))

/-- The initial loop state (run_modify.py lines 304-313). -/
def initLoopState : LoopState :=
  { j := 0, last_pressed_time := 0, key_held := false, prev_timer_value := 0,
    start_time := none, press_count := 0, times_recorded := [],
    stream_list := [] }

/-- The values the NDI branch assigns to the testbed in one iteration:
`transform_matrix` and the final values of `testbed.look_at`,
`testbed.view_dir`, `testbed.up_dir`, `testbed.scale`, `testbed.tasktime`. -/
structure FrameOut where
  transform_matrix : M4
  look_at : ℚ × ℚ × ℚ
  view_dir : ℚ × ℚ × ℚ
  up_dir : ℚ × ℚ × ℚ
  scale : ℚ
  tasktime : ℚ

/-- One iteration of the NDI branch on a valid tracking sample
(run_modify.py lines 322-458; the branch is guarded by
`not np.isnan(tracking[0][0][-1])`, and NaN has no ℚ counterpart, so the
step embeds the body that runs when the sample is valid).  External
readings of one iteration are oracles: `timer` is `testbed.timer`, `nowT`
stands for the `time.time()` readings of the iteration, `keyL`/`keySpace`
are `keyboard.is_pressed('l')`/`keyboard.is_pressed(' ')`.  The
evaluation branch (lines 363-404) only updates bookkeeping state; the
camera pose is computed from the tracking sample and the loaded
constants. -/
def ndiLoopStep (evaluation : Bool) (base_pose : M4)
    (tool2camera world_center : M4) (post_avglen : List ℚ)
    (st : LoopState) (tracking : M4) (timer nowT : ℚ)
    (keyL keySpace : Bool) : LoopState × FrameOut :=
  let transform_matrix :=
    ndiTransform tool2camera world_center post_avglen tracking
  let st1 : LoopState :=
    if evaluation then
      let st :=
        if timer ≠ st.prev_timer_value then
          { st with
            times_recorded :=
              match st.start_time with
              | some s => st.times_recorded ++ [nowT - s]
              | none => st.times_recorded,
            start_time := some nowT,
            prev_timer_value := timer }
        else st
      let st := if keyL then { st with j := 0 } else st
      if keySpace ∧ 0.5 ≤ nowT - st.last_pressed_time then
        if st.key_held = false then
          let transformed_data := tracking * pivotCalibMatrix
          let stream := [(st.j, transformed_data)]
          let relative_stream :=
            calculate_relative_positions base_pose stream
          let press_count := st.press_count + 1
          let st :=
            if press_count % 10 = 0 then
              match st.start_time with
              | some s =>
                { st with times_recorded := st.times_recorded ++ [nowT - s],
                          start_time := none }
              | none => st
            else st
          { st with
            stream_list := st.stream_list ++ [relative_stream],
            j := st.j + 1,
            press_count := press_count,
            key_held := true,
            last_pressed_time := nowT }
        else { st with key_held := false }
      else st
    else st
  let time_duration :=
    match st1.start_time with
    | none => 0
    | some s => nowT - s
  (st1,
   { transform_matrix := transform_matrix,
     look_at := lookAtOf transform_matrix,
     view_dir := viewDirOf transform_matrix,
     up_dir := upDirOf transform_matrix,
     scale := scaleOf transform_matrix,
     tasktime := time_duration })

/-- Affine rig matrix: the bottom row is `[0,0,0,1]`.  Every matrix this
pipeline is meant for (optical-tracking poses, the handeye calibration,
the world-center transform) is of this form. -/
def IsAffine (m : M4) : Prop := ∀ j, m 3 j = if j = 3 then 1 else 0

instance (m : M4) : Decidable (IsAffine m) := by
  unfold IsAffine; infer_instance

/-- Spec step (1), per the claim's words: handeye calibration left-multiplies
by `camera2tool` composed with the inverse of the tracking matrix. -/
def handeyeStep (camera2tool tracking : M4) : M4 :=
  camera2tool * matInv tracking

/-- Spec step (2), per the claim's words: world-centering right-multiplies
by `world_center` and `tool2camera`. -/
def worldCenterStep (world_center tool2camera m : M4) : M4 :=
  m * world_center * tool2camera

/-- Spec step (3), per the claim's words: inversion, sign flips of columns
1 and 2 (the whole columns), row permutation `[1,0,2,3]`, negation of
row 2. -/
def specAxisFlip (m : M4) : M4 :=
  let c2w := matInv m
  let c2w := Matrix.of fun i j => if j = 1 ∨ j = 2 then -c2w i j else c2w i j
  let c2w := Matrix.of fun i j => c2w (rowPerm i) j
  Matrix.of fun i j => if i = 2 then -c2w i j else c2w i j

/-- Spec step (4), per the claim's words: scale the translation column by
`4.0` divided by the mean of `post_avglen`. -/
def translationScaleStep (post_avglen : List ℚ) (m : M4) : M4 :=
  let avg := post_avglen.sum / (post_avglen.length : ℚ)
  Matrix.of fun i j => if j = 3 ∧ i ≠ 3 then 4 / avg * m i j else m i j

/-! Configuration logic of the driver. -/

/-- The argument fields of `parse_args` that the configuration claims
depend on, with their argparse defaults in `defaultArgs`. -/
structure Args where
  gui : Bool
  vr : Bool
  ndi : Bool
  n_steps : ℤ
  load_snapshot : String
  width : ℤ
  height : ℤ

/-- argparse defaults: `--gui`/`--vr`/`--ndi` are `store_true` flags,
`--n_steps` defaults to `-1`, `--load_snapshot` to `""`, `--width` and
`--height` to `0`. -/
def defaultArgs : Args :=
  { gui := false, vr := false, ndi := false, n_steps := -1,
    load_snapshot := "", width := 0, height := 0 }

/-- `if args.vr: args.gui = True` (run_modify.py lines 170-171): VR implies
having the GUI running. -/
def applyVr (a : Args) : Args :=
  if a.vr then { a with gui := true } else a

/-- `n_steps = args.n_steps` followed by
`if n_steps < 0 and (not args.load_snapshot or args.gui): n_steps = 35000`
(run_modify.py lines 260-266).  An empty `--load_snapshot` string is falsy. -/
def nStepsAfterDefault (a : Args) : ℤ :=
  let args := applyVr a
  let n_steps := args.n_steps
  if n_steps < 0 ∧ (args.load_snapshot = "" ∨ args.gui = true) then 35000
  else n_steps

/-- `if n_steps > 0:` guarding the whole training loop
(run_modify.py line 315). -/
def trainingLoopRuns (a : Args) : Bool :=
  decide (0 < nStepsAfterDefault a)

/-- `if args.gui and args.ndi:` guarding `TRACKER = NDITracker(SETTINGS)`
and `TRACKER.start_tracking()` (run_modify.py lines 268-275), evaluated
after the VR adjustment of `args.gui`. -/
def trackerCreated (a : Args) : Bool :=
  (applyVr a).gui && (applyVr a).ndi

/-- `if args.gui and args.ndi:` guarding the per-iteration
`TRACKER.get_frame()` poll (run_modify.py lines 322-323). -/
def polledEachFrame (a : Args) : Bool :=
  (applyVr a).gui && (applyVr a).ndi

/-- Python's `x or d` for an integer `x`: `x` when truthy (nonzero), else
`d`.  Models `args.width or 1920` and `args.height or 1080`
(run_modify.py lines 196-197). -/
def pyOrInt (x d : ℤ) : ℤ := if x = 0 then d else x

/-- The GUI resolution-halving loop (run_modify.py lines 198-200):
`while sw * sh > 1920 * 1080 * 4: sw = int(sw / 2); sh = int(sh / 2)`.
Python's `int(x / 2)` truncates toward zero, which is `Int.tdiv x 2`. -/
def halveLoop (sw sh : ℤ) : ℤ × ℤ :=
  if h : 1920 * 1080 * 4 < sw * sh then
    halveLoop (sw.tdiv 2) (sh.tdiv 2)
  else (sw, sh)
termination_by sw.natAbs
decreasing_by
  have hsw : sw ≠ 0 := by
    intro h0
    rw [h0] at h
    simp at h
  rw [Int.natAbs_tdiv]
  exact Nat.div_lt_self (Int.natAbs_pos.mpr hsw) one_lt_two

/-- The resolution passed to `testbed.init_window` (run_modify.py lines
196-201). -/
def guiResolution (a : Args) : ℤ × ℤ :=
  halveLoop (pyOrInt a.width 1920) (pyOrInt a.height 1080)

/-! The `--test_transforms` evaluation (run_modify.py lines 537-595). -/

/-- Accumulators of the test-transforms loop (run_modify.py lines 543-548):
`totmse = totpsnr = totssim = 0`, `totcount = 0`, `minpsnr = 1000`,
`maxpsnr = 0`. -/
structure EvalAcc where
  totmse : ℚ
  totpsnr : ℚ
  totssim : ℚ
  totcount : ℕ
  minpsnr : ℚ
  maxpsnr : ℚ

/-- The initial accumulator values (run_modify.py lines 543-548). -/
def evalInit : EvalAcc :=
  { totmse := 0, totpsnr := 0, totssim := 0, totcount := 0,
    minpsnr := 1000, maxpsnr := 0 }

/-- One image of the loop body (run_modify.py lines 576-586).  The rendered
and reference images live in the native engine, so an image is abstracted
to the pair of its `compute_error("MSE", A, R)` and
`compute_error("SSIM", A, R)` values; `mse2psnr` comes from the external
`common` module and is a parameter.  The body accumulates
`totssim += ssim`, `totmse += mse`, `psnr = mse2psnr(mse)`,
`totpsnr += psnr`, `minpsnr = psnr if psnr<minpsnr else minpsnr`,
`maxpsnr = psnr if psnr>maxpsnr else maxpsnr`, `totcount = totcount+1`. -/
def evalStep (mse2psnr : ℚ → ℚ) (acc : EvalAcc) (img : ℚ × ℚ) : EvalAcc :=
  let mse := img.1
  let ssim := img.2
  let psnr := mse2psnr mse
  { totmse := acc.totmse + mse,
    totpsnr := acc.totpsnr + psnr,
    totssim := acc.totssim + ssim,
    totcount := acc.totcount + 1,
    minpsnr := if psnr < acc.minpsnr then psnr else acc.minpsnr,
    maxpsnr := if acc.maxpsnr < psnr then psnr else acc.maxpsnr }

/-- The accumulator after the loop over the test dataset's images. -/
def runEval (mse2psnr : ℚ → ℚ) (imgs : List (ℚ × ℚ)) : EvalAcc :=
  imgs.foldl (evalStep mse2psnr) evalInit

/-- Python's `totcount or 1`: `totcount` when nonzero, else `1`
(run_modify.py lines 587 and 590-592). -/
def guardedCount (n : ℕ) : ℕ := if n = 0 then 1 else n

/-- The reported values (run_modify.py lines 590-593):
`psnr_avgmse = mse2psnr(totmse/(totcount or 1))`,
`psnr = totpsnr/(totcount or 1)`, `ssim = totssim/(totcount or 1)`. -/
def reportedMetrics (mse2psnr : ℚ → ℚ) (imgs : List (ℚ × ℚ)) : ℚ × ℚ × ℚ :=
  let acc := runEval mse2psnr imgs
  (mse2psnr (acc.totmse / (guardedCount acc.totcount : ℚ)),
   acc.totpsnr / (guardedCount acc.totcount : ℚ),
   acc.totssim / (guardedCount acc.totcount : ℚ))

/-! The `--video_camera_path` render loop (run_modify.py lines 630-663). -/

/-- What the render loop does at one frame index. -/
inductive FrameAct where
  | warm
  | skip
  | full
  deriving DecidableEq

/-- `n_frames = args.video_n_seconds * args.video_fps`
(run_modify.py line 634). -/
def n_frames (video_n_seconds video_fps : ℤ) : ℤ :=
  video_n_seconds * video_fps

/-- The frame indices of the render loop,
`range(min(n_frames, n_frames+1))` (run_modify.py line 642); a Python
`range` of a negative bound is empty. -/
def videoIndices (video_n_seconds video_fps : ℤ) : List ℤ :=
  (List.range
    (min (n_frames video_n_seconds video_fps)
         (n_frames video_n_seconds video_fps + 1)).toNat).map Int.ofNat

/-- The branch taken at index `i` (run_modify.py lines 645-657):
`if start_frame >= 0 and i < start_frame:` render a 32x32 frame and
`continue` (discarding it); `elif end_frame >= 0 and i > end_frame:`
`continue`; otherwise render a full-resolution frame and write it. -/
def frameAct (start_frame end_frame i : ℤ) : FrameAct :=
  if 0 ≤ start_frame ∧ i < start_frame then FrameAct.warm
  else if 0 ≤ end_frame ∧ end_frame < i then FrameAct.skip
  else FrameAct.full

/-- `save_frames = "%" in args.video_output` (run_modify.py line 635):
whether the one-character pattern occurs in the output filename. -/
def save_frames (video_output : String) : Bool :=
  video_output.toList.contains '%'

/-- `if not save_frames: os.system("ffmpeg ...")`
(run_modify.py lines 662-663). -/
def runsFfmpeg (video_output : String) : Bool :=
  !save_frames video_output

/-- A concrete configuration passing `--vr --ndi` but not `--gui`. -/
def argsVrNdi : Args := { defaultArgs with vr := true, ndi := true }

/-- A concrete configuration passing `--load_snapshot scene.ingp --vr`,
omitting `--n_steps` and `--gui`. -/
def argsSnapVr : Args :=
  { defaultArgs with load_snapshot := "scene.ingp", vr := true }

/-- A concrete configuration passing only `--load_snapshot scene.ingp`. -/
def argsSnapOnly : Args :=
  { defaultArgs with load_snapshot := "scene.ingp" }

/-! ## Helper lemmas -/

theorem matInv_eq (A : M4) : matInv A = A⁻¹ := by
  rw [Matrix.inv_def, Ring.inverse_eq_inv']
  unfold matInv
  split_ifs with h
  · simp [h]
  · rfl

theorem matInv_det_zero {A : M4} (h : A.det = 0) : matInv A = 0 := by
  simp [matInv, h]

theorem isAffine_mul {A B : M4} (hA : IsAffine A) (hB : IsAffine B) :
    IsAffine (A * B) := by
  intro j
  rw [Matrix.mul_apply, Fin.sum_univ_four]
  simp [hA 0, hA 1, hA 2, hA 3, hB j]

theorem isAffine_matInv {A : M4} (hA : IsAffine A) (hd : A.det ≠ 0) :
    IsAffine (matInv A) := by
  have hu : IsUnit A.det := isUnit_iff_ne_zero.mpr hd
  have hmul : A * A⁻¹ = 1 := Matrix.mul_nonsing_inv A hu
  intro j
  have h1 : (A * A⁻¹) 3 j = A⁻¹ 3 j := by
    rw [Matrix.mul_apply, Fin.sum_univ_four]
    simp [hA 0, hA 1, hA 2, hA 3]
  rw [matInv_eq, ← h1, hmul, Matrix.one_apply]
  simp [eq_comm]

/-- The two flip variants differ only at the bottom-row entries of columns
1 and 2 of the inverted matrix; when those entries vanish they agree. -/
theorem flip_eq_specAxisFlip {m : M4} (h1 : matInv m 3 1 = 0)
    (h2 : matInv m 3 2 = 0) : flip_matrix m = specAxisFlip m := by
  unfold flip_matrix specAxisFlip
  ext i j
  fin_cases i <;> fin_cases j <;>
    simp [rowPerm, Matrix.of_apply, h1, h2, Fin.isValue]

/-- For affine calibration and tracking matrices, the inverse of the
matrix handed to `flip_matrix` has vanishing bottom-row entries in
columns 1 and 2 (whether or not anything is singular). -/
theorem inner_inv_entries {t2c wc trk : M4}
    (h1 : IsAffine t2c) (h2 : IsAffine wc) (h3 : IsAffine trk) :
    matInv (matInv t2c * matInv trk * wc * t2c) 3 1 = 0 ∧
    matInv (matInv t2c * matInv trk * wc * t2c) 3 2 = 0 := by
  set M := matInv t2c * matInv trk * wc * t2c with hM
  by_cases hd : M.det = 0
  · rw [matInv_det_zero hd]
    simp
  · have ht2c : t2c.det ≠ 0 := by
      intro h0
      apply hd
      rw [hM, matInv_det_zero h0]
      simp
    have htrk : trk.det ≠ 0 := by
      intro h0
      apply hd
      rw [hM, matInv_det_zero h0]
      simp
    have hMaff : IsAffine M :=
      isAffine_mul (isAffine_mul (isAffine_mul (isAffine_matInv h1 ht2c)
        (isAffine_matInv h3 htrk)) h2) h1
    have hres := isAffine_matInv hMaff hd
    exact ⟨hres 1, hres 2⟩

/-- Bound invariant of the GUI resolution-halving loop; its totality is
the termination claim. -/
theorem halveLoop_bound (sw sh : ℤ) :
    (halveLoop sw sh).1 * (halveLoop sw sh).2 ≤ 1920 * 1080 * 4 := by
  induction sw, sh using halveLoop.induct with
  | case1 sw sh h ih =>
    rw [halveLoop, dif_pos h]
    exact ih
  | case2 sw sh h =>
    rw [halveLoop, dif_neg h]
    exact le_of_not_lt h

/-- Python's `psnr if psnr < minpsnr else minpsnr` is `min`. -/
theorem pyMinEq (m p : ℚ) : (if p < m then p else m) = min m p := by
  rcases lt_or_ge p m with hc | hc
  · rw [if_pos hc, min_eq_right hc.le]
  · rw [if_neg (not_lt.mpr hc), min_eq_left hc]

/-- Python's `psnr if psnr > maxpsnr else maxpsnr` is `max`. -/
theorem pyMaxEq (m p : ℚ) : (if m < p then p else m) = max m p := by
  rcases lt_or_ge m p with hc | hc
  · rw [if_pos hc, max_eq_right hc.le]
  · rw [if_neg (not_lt.mpr hc), max_eq_left hc]

/-- Closed form of the test-transforms accumulation from an arbitrary
starting accumulator. -/
theorem foldl_evalStep (f : ℚ → ℚ) (imgs : List (ℚ × ℚ)) (acc : EvalAcc) :
    imgs.foldl (evalStep f) acc =
      { totmse := acc.totmse + (imgs.map Prod.fst).sum,
        totpsnr := acc.totpsnr + (imgs.map fun p => f p.1).sum,
        totssim := acc.totssim + (imgs.map Prod.snd).sum,
        totcount := acc.totcount + imgs.length,
        minpsnr := (imgs.map fun p => f p.1).foldl min acc.minpsnr,
        maxpsnr := (imgs.map fun p => f p.1).foldl max acc.maxpsnr } := by
  induction imgs generalizing acc with
  | nil => simp
  | cons x l ih =>
    rw [List.foldl_cons, ih]
    simp [evalStep, pyMinEq, pyMaxEq]
    constructor
    · ring
    · constructor
      · ring
      · constructor
        · ring
        · omega

/-! ## Claim theorems -/

/-- Claim C1 (code bug).  The claim says each score appended to `total` is
the SSIM of the generated image against its same-named reference image.
The code instead appends `ssim(grayA, grayB)` — the hardcoded 564 pair —
for every directory entry: on an environment whose `100.png` pair scores
34 while the 564 pair scores 12, the loop appends 12 and the printed
directory average is 12, not the 34 the claim requires. -/
theorem C1_ssim_loop_scores_hardcoded_pair :
    (∀ env : SsimEnv,
      totalScores env = env.listing.map fun _ => headerScore env) ∧
    totalScores envBug = [12] ∧
    headerScore envBug = 12 ∧
    claimedPairScore envBug "100.png" = 34 ∧
    dirAverage envBug = some 12 ∧
    (12 : ℚ) ≠ 34 := by
  refine ⟨fun env => rfl, ?_, ?_, ?_, ?_, by norm_num⟩ <;>
    simp [envBug, totalScores, loopBodyScore, claimedPairScore, headerScore,
      dirAverage, grayA, grayB, imageA, imageB, ssimPath] <;> norm_num

/-- Claim C2.  For every valid tracking sample and affine rig constants,
the per-frame NDI transform is exactly the composition of (1) the handeye
step, (2) the world-centering step, (3) the axis flip as the claim words
it, and (4) the translation scaling by `4.0` over the mean of
`post_avglen`; and (5) the iteration's final `look_at`, `view_dir` and
`up_dir` are derived from that resulting matrix. -/
theorem C2_ndi_pose_pipeline_steps
    (tool2camera world_center tracking : M4) (post_avglen : List ℚ)
    (h1 : IsAffine tool2camera) (h2 : IsAffine world_center)
    (h3 : IsAffine tracking) :
    ndiTransform tool2camera world_center post_avglen tracking =
      translationScaleStep post_avglen
        (specAxisFlip (worldCenterStep world_center tool2camera
          (handeyeStep (matInv tool2camera) tracking))) ∧
    ∀ evaluation base_pose st timer nowT keyL keySpace,
      (ndiLoopStep evaluation base_pose tool2camera world_center post_avglen
          st tracking timer nowT keyL keySpace).2.look_at =
        lookAtOf (translationScaleStep post_avglen
          (specAxisFlip (worldCenterStep world_center tool2camera
            (handeyeStep (matInv tool2camera) tracking)))) ∧
      (ndiLoopStep evaluation base_pose tool2camera world_center post_avglen
          st tracking timer nowT keyL keySpace).2.view_dir =
        viewDirOf (translationScaleStep post_avglen
          (specAxisFlip (worldCenterStep world_center tool2camera
            (handeyeStep (matInv tool2camera) tracking)))) ∧
      (ndiLoopStep evaluation base_pose tool2camera world_center post_avglen
          st tracking timer nowT keyL keySpace).2.up_dir =
        upDirOf (translationScaleStep post_avglen
          (specAxisFlip (worldCenterStep world_center tool2camera
            (handeyeStep (matInv tool2camera) tracking)))) := by
  obtain ⟨e1, e2⟩ := inner_inv_entries h1 h2 h3
  have hmain : ndiTransform tool2camera world_center post_avglen tracking =
      translationScaleStep post_avglen
        (specAxisFlip (worldCenterStep world_center tool2camera
          (handeyeStep (matInv tool2camera) tracking))) := by
    unfold ndiTransform translationScaleStep worldCenterStep handeyeStep
    dsimp only
    rw [flip_eq_specAxisFlip e1 e2]
  refine ⟨hmain, ?_⟩
  intro evaluation base_pose st timer nowT keyL keySpace
  refine ⟨?_, ?_, ?_⟩ <;>
    simp only [ndiLoopStep, ← hmain]

/-- Witness for C2 at the identity rig matrices and `post_avglen = [4]`. -/
theorem C2_ndi_pose_pipeline_steps_witness :
    IsAffine (1 : M4) ∧
    ndiTransform 1 1 [4] 1 =
      translationScaleStep [4]
        (specAxisFlip (worldCenterStep 1 1 (handeyeStep (matInv 1) 1))) :=
  ⟨by decide,
   (C2_ndi_pose_pipeline_steps 1 1 1 [4] (by decide) (by decide)
     (by decide)).1⟩

/-- Claim C3.  With `--test_transforms`, every image's MSE and SSIM are
accumulated together with its PSNR, the minimum and maximum PSNR are
tracked, `totcount` counts the images, and the reported averages divide
each total by `(totcount or 1)` — which equals the image count for a
non-empty dataset and `1` (never `0`) for an empty one. -/
theorem C3_test_transforms_metrics (mse2psnr : ℚ → ℚ)
    (imgs : List (ℚ × ℚ)) :
    (runEval mse2psnr imgs).totcount = imgs.length ∧
    (runEval mse2psnr imgs).totmse = (imgs.map Prod.fst).sum ∧
    (runEval mse2psnr imgs).totssim = (imgs.map Prod.snd).sum ∧
    (runEval mse2psnr imgs).totpsnr = (imgs.map fun p => mse2psnr p.1).sum ∧
    (runEval mse2psnr imgs).minpsnr =
      (imgs.map fun p => mse2psnr p.1).foldl min 1000 ∧
    (runEval mse2psnr imgs).maxpsnr =
      (imgs.map fun p => mse2psnr p.1).foldl max 0 ∧
    guardedCount (runEval mse2psnr imgs).totcount =
      (if imgs.length = 0 then 1 else imgs.length) ∧
    guardedCount (runEval mse2psnr imgs).totcount ≠ 0 ∧
    reportedMetrics mse2psnr imgs =
      (mse2psnr ((runEval mse2psnr imgs).totmse /
        (guardedCount (runEval mse2psnr imgs).totcount : ℚ)),
       (runEval mse2psnr imgs).totpsnr /
        (guardedCount (runEval mse2psnr imgs).totcount : ℚ),
       (runEval mse2psnr imgs).totssim /
        (guardedCount (runEval mse2psnr imgs).totcount : ℚ)) := by
  have hrun := foldl_evalStep mse2psnr imgs evalInit
  unfold runEval reportedMetrics runEval
  rw [hrun]
  simp [evalInit, guardedCount]
  split_ifs with he
  · decide
  · simpa [List.length_eq_zero] using he

/-- Claim C4 counterexample.  With `video_n_seconds = -1` the loop runs 0
times, not `-60` times; and with `START_FRAME = 10`, `END_FRAME = 2`,
index 5 of an actual 60-frame run lies after `END_FRAME` yet takes the
32x32 warm-up branch instead of being skipped entirely. -/
theorem C4_video_loop_counterexample :
    ((videoIndices (-1) 60).length : ℤ) ≠ n_frames (-1) 60 ∧
    (5 : ℤ) ∈ videoIndices 1 60 ∧ (0 : ℤ) ≤ 2 ∧ (2 : ℤ) < 5 ∧
    frameAct 10 2 5 ≠ FrameAct.skip := by
  refine ⟨by decide, by decide, by decide, by decide, by decide⟩

/-- Claim C4 as amended.  The render loop iterates
`max 0 (video_n_seconds * video_fps)` times; for a non-negative
`START_FRAME` every index before it is rendered at 32x32 and discarded;
for a non-negative `END_FRAME` every index after it that is not handled by
the `START_FRAME` branch is skipped entirely; a full-resolution frame is
rendered exactly for the remaining indices; and ffmpeg stitching runs if
and only if the output filename contains no `%` character. -/
theorem C4_video_loop_amended (s fps st en : ℤ) (out : String) :
    ((videoIndices s fps).length : ℤ) = max 0 (n_frames s fps) ∧
    (∀ i ∈ videoIndices s fps,
      (0 ≤ st ∧ i < st → frameAct st en i = FrameAct.warm) ∧
      (0 ≤ en ∧ en < i ∧ ¬(0 ≤ st ∧ i < st) →
        frameAct st en i = FrameAct.skip) ∧
      (frameAct st en i = FrameAct.full ↔
        ¬(0 ≤ st ∧ i < st) ∧ ¬(0 ≤ en ∧ en < i))) ∧
    (runsFfmpeg out = true ↔ ¬ '%' ∈ out.toList) := by
  refine ⟨?_, ?_, ?_⟩
  · unfold videoIndices n_frames
    rw [List.length_map, List.length_range]
    omega
  · intro i _
    refine ⟨?_, ?_, ?_⟩
    · intro hw
      unfold frameAct
      rw [if_pos hw]
    · rintro ⟨he1, he2, hns⟩
      unfold frameAct
      rw [if_neg hns, if_pos ⟨he1, he2⟩]
    · unfold frameAct
      split_ifs with hw hs
      · simp [hw]
      · simp [hs, hw]
      · simp [hw, hs]
  · unfold runsFfmpeg save_frames
    simp [List.elem_iff]

/-- Witness for the amended C4 at a concrete configuration
(`video_n_seconds = 1`, `video_fps = 2`, `START_FRAME = 0`,
`END_FRAME = 0`, output `video.mp4`). -/
theorem C4_video_loop_amended_witness :
    ((videoIndices 1 2).length : ℤ) = max 0 (n_frames 1 2) ∧
    (∀ i ∈ videoIndices 1 2,
      ((0 : ℤ) ≤ 0 ∧ i < 0 → frameAct 0 0 i = FrameAct.warm) ∧
      ((0 : ℤ) ≤ 0 ∧ 0 < i ∧ ¬((0 : ℤ) ≤ 0 ∧ i < 0) →
        frameAct 0 0 i = FrameAct.skip) ∧
      (frameAct 0 0 i = FrameAct.full ↔
        ¬((0 : ℤ) ≤ 0 ∧ i < 0) ∧ ¬((0 : ℤ) ≤ 0 ∧ 0 < i))) ∧
    (runsFfmpeg "video.mp4" = true ↔ ¬ '%' ∈ "video.mp4".toList) :=
  C4_video_loop_amended 1 2 0 0 "video.mp4"

/-- Claim C5 counterexample.  With `--vr --ndi` and no `--gui`, the driver
still creates and starts the tracker, because `args.vr` forces
`args.gui = True` before the `args.gui and args.ndi` check — contradicting
the claim that the tracker is created if and only if both the `--gui` and
`--ndi` flags are given. -/
theorem C5_tracker_gating_counterexample :
    trackerCreated argsVrNdi = true ∧
    (argsVrNdi.gui && argsVrNdi.ndi) = false :=
  ⟨rfl, rfl⟩

/-- Claim C5 as amended.  The tracker is initialized/started, and polled
once per training-loop iteration, if and only if `--ndi` is given together
with `--gui` or `--vr` (VR implies the GUI); in every other configuration
neither happens. -/
theorem C5_tracker_gating_amended (a : Args) :
    trackerCreated a = (a.ndi && (a.gui || a.vr)) ∧
    polledEachFrame a = trackerCreated a := by
  obtain ⟨g, v, n, s, l, w, h⟩ := a
  cases g <;> cases v <;> cases n <;>
    simp [trackerCreated, polledEachFrame, applyVr]

/-- Claim C6.  The per-frame camera-pose computation is stateless: for the
same tracking sample and the same loaded constants, every iteration —
whatever the surviving loop state and the keyboard/clock/timer readings —
produces the same `transform_matrix`, `look_at`, `view_dir` and `up_dir`,
each a pure function of the tracking sample and the constants. -/
theorem C6_pose_stateless (evaluation : Bool)
    (base_pose tool2camera world_center : M4) (post_avglen : List ℚ)
    (st st' : LoopState) (tracking : M4) (timer timer' nowT nowT' : ℚ)
    (keyL keyL' keySpace keySpace' : Bool) :
    ((ndiLoopStep evaluation base_pose tool2camera world_center post_avglen
        st tracking timer nowT keyL keySpace).2.transform_matrix =
      ndiTransform tool2camera world_center post_avglen tracking) ∧
    ((ndiLoopStep evaluation base_pose tool2camera world_center post_avglen
        st tracking timer nowT keyL keySpace).2.look_at =
      lookAtOf (ndiTransform tool2camera world_center post_avglen tracking)) ∧
    ((ndiLoopStep evaluation base_pose tool2camera world_center post_avglen
        st tracking timer nowT keyL keySpace).2.view_dir =
      viewDirOf (ndiTransform tool2camera world_center post_avglen tracking)) ∧
    ((ndiLoopStep evaluation base_pose tool2camera world_center post_avglen
        st tracking timer nowT keyL keySpace).2.up_dir =
      upDirOf (ndiTransform tool2camera world_center post_avglen tracking)) ∧
    ((ndiLoopStep evaluation base_pose tool2camera world_center post_avglen
        st tracking timer nowT keyL keySpace).2.transform_matrix =
      (ndiLoopStep evaluation base_pose tool2camera world_center post_avglen
        st' tracking timer' nowT' keyL' keySpace').2.transform_matrix) ∧
    ((ndiLoopStep evaluation base_pose tool2camera world_center post_avglen
        st tracking timer nowT keyL keySpace).2.look_at =
      (ndiLoopStep evaluation base_pose tool2camera world_center post_avglen
        st' tracking timer' nowT' keyL' keySpace').2.look_at) ∧
    ((ndiLoopStep evaluation base_pose tool2camera world_center post_avglen
        st tracking timer nowT keyL keySpace).2.view_dir =
      (ndiLoopStep evaluation base_pose tool2camera world_center post_avglen
        st' tracking timer' nowT' keyL' keySpace').2.view_dir) ∧
    ((ndiLoopStep evaluation base_pose tool2camera world_center post_avglen
        st tracking timer nowT keyL keySpace).2.up_dir =
      (ndiLoopStep evaluation base_pose tool2camera world_center post_avglen
        st' tracking timer' nowT' keyL' keySpace').2.up_dir) :=
  ⟨rfl, rfl, rfl, rfl, rfl, rfl, rfl, rfl⟩

/-- Claim C7.  The snippet's first six effects are exactly: read the two
hardcoded paths, convert both loaded images to grayscale, compute their
structural-similarity score, and print that single score — all before any
event of the directory loop. -/
theorem C7_header_snippet_trace (env : SsimEnv) :
    (scriptTrace env).take 6 =
      [SEvent.eRead "black_toy/images/564.png",
       SEvent.eRead "black_toy/test_output/564.png",
       SEvent.eGray (imageA env),
       SEvent.eGray (imageB env),
       SEvent.eSsim (grayA env) (grayB env),
       SEvent.ePrint (headerScore env)] := rfl

/-- Claim C8.  For every pair of integer `--width`/`--height` arguments
(`0` replaced by 1920/1080), the halving loop terminates — `halveLoop`
is total — and the resolution handed to `init_window` satisfies
`sw * sh <= 1920 * 1080 * 4`. -/
theorem C8_resolution_halving_bound (w h : ℤ) :
    (guiResolution { defaultArgs with width := w, height := h }).1 *
      (guiResolution { defaultArgs with width := w, height := h }).2 ≤
      1920 * 1080 * 4 :=
  halveLoop_bound _ _

/-- Claim C9.  The printed directory average exists exactly when the
`test_output` listing is non-empty; on an empty listing
`sum(total)/len(total)` is a division by zero (modelled as `none`). -/
theorem C9_empty_listing_average_undefined (env : SsimEnv) :
    dirAverage env = none ↔ env.listing = [] := by
  unfold dirAverage
  rcases h : env.listing with _ | ⟨a, l⟩ <;> simp [totalScores, h]

/-- Claim C10 counterexample.  With `--load_snapshot scene.ingp --vr`,
`--n_steps` omitted and `--gui` not given, `n_steps` becomes 35000 rather
than remaining negative, because `--vr` forces `args.gui = True` — so the
claim's "exactly one configuration" (snapshot given, steps omitted, no
`--gui` flag) does not keep `n_steps` negative. -/
theorem C10_nsteps_default_counterexample :
    argsSnapVr.n_steps = -1 ∧ argsSnapVr.gui = false ∧
    argsSnapVr.load_snapshot ≠ "" ∧
    nStepsAfterDefault argsSnapVr = 35000 ∧
    ¬ nStepsAfterDefault argsSnapVr < 0 := by
  refine ⟨rfl, rfl, by decide, by decide, by decide⟩

/-- Claim C10 as amended.  When `--n_steps` is omitted (default `-1`),
`n_steps` becomes 35000 except exactly when a snapshot is loaded and
neither `--gui` nor `--vr` is given (VR implies the GUI); in that case it
stays `-1` and the training loop is skipped. -/
theorem C10_nsteps_default_amended (a : Args) (hn : a.n_steps = -1) :
    nStepsAfterDefault a =
      (if a.load_snapshot ≠ "" ∧ a.gui = false ∧ a.vr = false then -1
       else 35000) ∧
    (a.load_snapshot ≠ "" ∧ a.gui = false ∧ a.vr = false →
      trainingLoopRuns a = false) := by
  obtain ⟨g, v, n, s, l, w, h⟩ := a
  simp only at hn
  subst hn
  cases g <;> cases v <;> by_cases hl : l = "" <;>
    simp [nStepsAfterDefault, trainingLoopRuns, applyVr, hl]

/-- Witness for the amended C10 at `--load_snapshot scene.ingp` with
`--n_steps` omitted and neither `--gui` nor `--vr`. -/
theorem C10_nsteps_default_amended_witness :
    argsSnapOnly.n_steps = -1 ∧
    (nStepsAfterDefault argsSnapOnly =
      (if argsSnapOnly.load_snapshot ≠ "" ∧ argsSnapOnly.gui = false ∧
          argsSnapOnly.vr = false then -1
       else 35000) ∧
     (argsSnapOnly.load_snapshot ≠ "" ∧ argsSnapOnly.gui = false ∧
        argsSnapOnly.vr = false →
       trainingLoopRuns argsSnapOnly = false)) :=
  ⟨rfl, C10_nsteps_default_amended argsSnapOnly rfl⟩
